import Mathlib

/-!
Verification development for the clean WAV registry data model
(src/p05_data_models/clean_wav_registry.py).

The Python module is shallowly embedded as follows.

* Paths (pathlib.Path) are represented by their string form.  All
  filesystem-dependent behaviour — path canonicalization via
  Path.expanduser().resolve(), existence checks and stat metadata — is
  abstracted into an explicit environment structure FS that is threaded
  through every operation that touches the filesystem.  Canonicality of a
  path is "being a fixed point of FS.resolve"; the real resolve on a static
  filesystem is idempotent and always yields an absolute path, which shows
  up as hypotheses on FS where needed.
* The str Enum DroneType becomes an inductive type with a value map.
* ValueError raised by normalize_drone_type becomes an Except error value
  carrying the original input and the supported keys, matching the message
  arguments of the raise site.
* warnings.warn is a write to the process-wide Python warnings machinery.
  The emission is made explicit: normalize_drone_type returns, next to its
  result, the list of correction warnings it emits during the call, and
  normalize_drone_type_withWarnings threads the global warnings state.
* Numeric fields file_size (int), modified_time and snr_db (float) are
  never subject to arithmetic in the module — they are only stored,
  serialized and compared — so exact types (Int, Rat) model them faithfully.
* JSON persistence is modelled at the document-tree level: save_to_file
  produces the document that json.dumps would serialize (pydantic
  model_dump in json mode turns enums and paths into their strings), and
  load_from_file consumes such a document, re-running the field validators
  exactly as pydantic model_validate does.
-/

deriving instance DecidableEq for Except

/-- DroneType: the supported drone types in the registry, a closed
str-backed enumeration with members BEBOP = "bebop" and MAMBO = "mambo". -/
inductive DroneType where
  | bebop
  | mambo
  deriving DecidableEq

/-- The string value backing each enum member. -/
def DroneType.value : DroneType → String
  | .bebop => "bebop"
  | .mambo => "mambo"

/-- Lookup of an enum member by value, modelling the by-value enum
constructor call DroneType(s), which raises (here: none) on a miss. -/
def DroneType.ofValue (s : String) : Option DroneType :=
  if s = "bebop" then some .bebop
  else if s = "mambo" then some .mambo
  else none

/-- LEGACY_DRONE_NAME_MAPPING: legacy name mapping for backward
compatibility, as an association list in the source dict's order. -/
def LEGACY_DRONE_NAME_MAPPING : List (String × DroneType) :=
  [("membo", DroneType.mambo), ("mambo", DroneType.mambo), ("bebop", DroneType.bebop)]

/-- A correction diagnostic as emitted by warnings.warn inside
normalize_drone_type: the warning message interpolates exactly the original
raw value and the corrected canonical value, so those two strings are its
information content. -/
structure CorrectionWarning where
  original : String
  corrected : String
  deriving DecidableEq

/-- The payload of the ValueError raised by normalize_drone_type on an
unrecognized drone type: the original input value and the list of supported
keys of LEGACY_DRONE_NAME_MAPPING. -/
structure UnknownDroneTypeError where
  value : String
  supported : List String
  deriving DecidableEq

/-- Model of Python str.lower(): lower-case every character. -/
def pyLower (s : String) : String :=
  ⟨s.data.map Char.toLower⟩

/-- Model of Python str.strip(): drop leading and trailing whitespace. -/
def pyStrip (s : String) : String :=
  ⟨((s.data.dropWhile Char.isWhitespace).reverse.dropWhile Char.isWhitespace).reverse⟩

/-- The argument type of normalize_drone_type: Union[str, DroneType]. -/
abbrev DroneInput := Sum String DroneType

/-- normalize_drone_type: normalize a drone type, correcting legacy
misspellings.  Returns the result (or the ValueError payload) together with
the list of correction warnings the call emits via warnings.warn. -/
def normalize_drone_type (v : DroneInput) :
    Except UnknownDroneTypeError DroneType × List CorrectionWarning :=
  match v with
  | .inr dt => (.ok dt, [])
  | .inl value =>
    let normalized_value := pyStrip (pyLower value)
    match LEGACY_DRONE_NAME_MAPPING.lookup normalized_value with
    | some corrected_type =>
      if normalized_value = "membo" then
        (.ok corrected_type, [{ original := value, corrected := corrected_type.value }])
      else
        (.ok corrected_type, [])
    | none =>
      match DroneType.ofValue normalized_value with
      | some dt => (.ok dt, [])
      | none =>
        (.error { value := value, supported := LEGACY_DRONE_NAME_MAPPING.map Prod.fst }, [])

/-- The process-wide state of the Python warnings machinery, reduced to the
stream of warnings emitted so far. -/
structure PyWarningsState where
  emitted : List CorrectionWarning
  deriving DecidableEq

/-- normalize_drone_type with the global warnings state made explicit: the
function returns only a DroneType (or raises); its correction diagnostic is
delivered by appending to the process-wide warnings stream. -/
def normalize_drone_type_withWarnings (g : PyWarningsState) (v : DroneInput) :
    PyWarningsState × Except UnknownDroneTypeError DroneType :=
  match normalize_drone_type v with
  | (res, ws) => ({ emitted := g.emitted ++ ws }, res)

/-- The filesystem environment consumed by the module: path
canonicalization (Path.expanduser().resolve() as one composite), existence
checks, absoluteness, and stat metadata. -/
structure FS where
  resolve : String → String
  isAbsolute : String → Bool
  pathExists : String → Bool
  st_size : String → Int
  st_mtime : String → Rat

/-- CleanWavEntry.validate_file_path: convert the input to an absolute path
and resolve any symbolic links (Path(v).expanduser().resolve()). -/
def validate_file_path (fs : FS) (v : String) : String :=
  fs.resolve v

/-- CleanWavEntry.validate_drone_type: validate and normalize the drone
type, correcting legacy misspellings. -/
def validate_drone_type (v : DroneInput) :
    Except UnknownDroneTypeError DroneType × List CorrectionWarning :=
  normalize_drone_type v

/-- RegistryHeader.validate_root_dir: convert the input to an absolute path
and resolve any symbolic links (Path(v).expanduser().resolve()). -/
def validate_root_dir (fs : FS) (v : String) : String :=
  fs.resolve v

/-- CleanWavEntry: a single entry in the clean WAV registry. -/
structure CleanWavEntry where
  file_path : String
  drone_type : DroneType
  file_size : Int
  modified_time : Rat
  snr_db : Rat
  deriving DecidableEq

/-- Validated construction of a CleanWavEntry: pydantic runs the field
validators, so file_path is canonicalized and drone_type normalized (with
any correction warning emitted).  The snr_db field's schema default is 20.0;
callers that omit it pass 20 here. -/
def CleanWavEntry.mk_validated (fs : FS) (file_path : String) (drone_type : DroneInput)
    (file_size : Int) (modified_time : Rat) (snr_db : Rat) :
    Except UnknownDroneTypeError (CleanWavEntry × List CorrectionWarning) :=
  match validate_drone_type drone_type with
  | (.ok dt, ws) =>
    .ok ({ file_path := validate_file_path fs file_path, drone_type := dt,
           file_size := file_size, modified_time := modified_time, snr_db := snr_db }, ws)
  | (.error e, _) => .error e

/-- RegistryHeader: metadata about the registry creation.  created_at is a
datetime; pydantic serializes it to an ISO-8601 string and parses that
string back to an equal datetime, so it is represented here by that string. -/
structure RegistryHeader where
  created_by : String
  created_at : String
  description : String
  filter_terms : List String
  root_dir : String
  deriving DecidableEq

/-- Validated construction of a RegistryHeader: the root_dir validator
canonicalizes; no other validator exists and none can fail. -/
def RegistryHeader.mk_validated (fs : FS) (created_by : String) (created_at : String)
    (description : String) (filter_terms : List String) (root_dir : String) :
    RegistryHeader :=
  { created_by := created_by, created_at := created_at, description := description,
    filter_terms := filter_terms, root_dir := validate_root_dir fs root_dir }

/-- CleanWavRegistry: container for the clean WAV file registry. -/
structure CleanWavRegistry where
  header : RegistryHeader
  entries : List CleanWavEntry
  deriving DecidableEq

/-- One step of the count_by_drone_type loop: a Python dict insert-or-
increment (defaultdict(int) counts[k] += 1), keys kept in insertion order. -/
def dictIncr : List (DroneType × Nat) → DroneType → List (DroneType × Nat)
  | [], k => [(k, 1)]
  | (k1, v) :: rest, k =>
    if k1 = k then (k1, v + 1) :: rest else (k1, v) :: dictIncr rest k

/-- CleanWavRegistry.count_by_drone_type: count entries by drone type. -/
def CleanWavRegistry.count_by_drone_type (r : CleanWavRegistry) :
    List (DroneType × Nat) :=
  r.entries.foldl (fun m e => dictIncr m e.drone_type) []

/-- Errors raised by CleanWavRegistry.add_entry: FileNotFoundError for a
missing target, or the ValueError propagated from normalization. -/
inductive AddEntryError where
  | fileNotFound (path : String)
  | unknownDroneType (e : UnknownDroneTypeError)
  deriving DecidableEq

/-- CleanWavRegistry.add_entry: add a new entry to the registry.  The
result pairs the registry state after the call (unchanged when an error is
raised, since the append is the final statement) with the outcome; a
successful outcome carries the correction warnings emitted during the call. -/
def CleanWavRegistry.add_entry (fs : FS) (r : CleanWavRegistry) (file_path : String)
    (drone_type : DroneInput) :
    CleanWavRegistry × Except AddEntryError (List CorrectionWarning) :=
  if fs.pathExists file_path then
    match normalize_drone_type drone_type with
    | (.ok normalized_drone_type, ws) =>
      match CleanWavEntry.mk_validated fs file_path (.inr normalized_drone_type)
          (fs.st_size file_path) (fs.st_mtime file_path) 20 with
      | .ok (entry, ws2) =>
        ({ r with entries := r.entries ++ [entry] }, .ok (ws ++ ws2))
      | .error e => (r, .error (.unknownDroneType e))
    | (.error e, _) => (r, .error (.unknownDroneType e))
  else
    (r, .error (.fileNotFound file_path))

/-- CleanWavRegistry.create: create a new registry with the given metadata
and an empty entry list.  The created_at default factory datetime.now() is
the explicit now argument. -/
def CleanWavRegistry.create (fs : FS) (created_by : String) (filter_terms : List String)
    (root_dir : String) (description : String) (now : String) : CleanWavRegistry :=
  { header := RegistryHeader.mk_validated fs created_by now description filter_terms root_dir,
    entries := [] }

/-- One entry of the persisted JSON document. -/
structure CleanWavEntryDoc where
  file_path : String
  drone_type : String
  file_size : Int
  modified_time : Rat
  snr_db : Rat
  deriving DecidableEq

/-- The header object of the persisted JSON document. -/
structure RegistryHeaderDoc where
  created_by : String
  created_at : String
  description : String
  filter_terms : List String
  root_dir : String
  deriving DecidableEq

/-- The persisted JSON document. -/
structure CleanWavRegistryDoc where
  header : RegistryHeaderDoc
  entries : List CleanWavEntryDoc
  deriving DecidableEq

/-- Serialization of one entry in model_dump json mode: the Path becomes
its string and the enum its backing value. -/
def CleanWavEntry.to_doc (e : CleanWavEntry) : CleanWavEntryDoc :=
  { file_path := e.file_path, drone_type := e.drone_type.value,
    file_size := e.file_size, modified_time := e.modified_time, snr_db := e.snr_db }

/-- CleanWavRegistry.save_to_file: the JSON document written for a
registry.  model_dump in json mode stringifies the enum and the paths; the
subsequent str() reassignments in the source are no-ops on that output. -/
def CleanWavRegistry.save_to_file (r : CleanWavRegistry) : CleanWavRegistryDoc :=
  { header := { created_by := r.header.created_by, created_at := r.header.created_at,
                description := r.header.description, filter_terms := r.header.filter_terms,
                root_dir := r.header.root_dir },
    entries := r.entries.map CleanWavEntry.to_doc }

/-- Validation of the entry list of a loaded document: each entry document
is rebuilt through CleanWavEntry.mk_validated (pydantic re-runs the field
validators on model_validate), collecting emitted correction warnings. -/
def loadEntriesFromDocs (fs : FS) :
    List CleanWavEntryDoc →
    Except UnknownDroneTypeError (List CleanWavEntry × List CorrectionWarning)
  | [] => .ok ([], [])
  | d :: ds =>
    match CleanWavEntry.mk_validated fs d.file_path (.inl d.drone_type)
        d.file_size d.modified_time d.snr_db with
    | .ok (e, ws) =>
      match loadEntriesFromDocs fs ds with
      | .ok (es, wss) => .ok (e :: es, ws ++ wss)
      | .error err => .error err
    | .error err => .error err

/-- CleanWavRegistry.load_from_file: load a registry from a persisted
document; the field validators convert string paths back to canonical paths
and re-normalize the drone types. -/
def CleanWavRegistry.load_from_file (fs : FS) (doc : CleanWavRegistryDoc) :
    Except UnknownDroneTypeError (CleanWavRegistry × List CorrectionWarning) :=
  match loadEntriesFromDocs fs doc.entries with
  | .ok (es, ws) =>
    .ok ({ header := RegistryHeader.mk_validated fs doc.header.created_by
             doc.header.created_at doc.header.description doc.header.filter_terms
             doc.header.root_dir,
           entries := es }, ws)
  | .error e => .error e

/-- A concrete filesystem for witnesses: resolution is the identity (all
inputs already canonical), every path exists, with fixed stat metadata. -/
def fsAll : FS :=
  { resolve := fun p => p, isAbsolute := fun _ => true,
    pathExists := fun _ => true, st_size := fun _ => 2048,
    st_mtime := fun _ => 100 }

/-- A concrete filesystem for witnesses on which no path exists. -/
def fsNone : FS :=
  { resolve := fun p => p, isAbsolute := fun _ => true,
    pathExists := fun _ => false, st_size := fun _ => 0,
    st_mtime := fun _ => 0 }

/-- A concrete registry as produced by create. -/
def r0 : CleanWavRegistry :=
  CleanWavRegistry.create fsAll "scan_wav_files.py" ["bebop", "mambo"] "/data"
    "Clean WAV file registry" "2025-01-01T00:00:00"

/-- The registry r0 after one successful add_entry with legacy label. -/
def r1 : CleanWavRegistry :=
  (r0.add_entry fsAll "/data/a.wav" (.inl "membo")).1

/-- Registries reachable through the module's own construction path:
created empty by create, then grown only by add_entry calls. -/
inductive ReachableByAddEntry (fs : FS) : CleanWavRegistry → Prop where
  | created (created_by : String) (filter_terms : List String)
      (root_dir description now : String) :
      ReachableByAddEntry fs
        (CleanWavRegistry.create fs created_by filter_terms root_dir description now)
  | step (r : CleanWavRegistry) (p : String) (v : DroneInput) :
      ReachableByAddEntry fs r →
      ReachableByAddEntry fs (r.add_entry fs p v).1

/-- The single entry of r1, as constructed by add_entry. -/
def entry1 : CleanWavEntry :=
  { file_path := "/data/a.wav", drone_type := .mambo, file_size := 2048,
    modified_time := 100, snr_db := 20 }

/-- The relation C2 asserts between a loaded document entry and the
resulting in-memory Entry: a legacy "membo" token is upgraded to Mambo and
its correction diagnostic appears among the emitted warnings ws. -/
def MemboUpgraded (ws : List CorrectionWarning) (d : CleanWavEntryDoc)
    (e : CleanWavEntry) : Prop :=
  pyStrip (pyLower d.drone_type) = "membo" →
    e.drone_type = DroneType.mambo ∧
    ({ original := d.drone_type, corrected := "mambo" } : CorrectionWarning) ∈ ws

/-- A hand-written document with a legacy "membo" drone_type. -/
def docMembo : CleanWavRegistryDoc :=
  { header := { created_by := "scan_wav_files.py",
                created_at := "2025-01-01T00:00:00",
                description := "Clean WAV file registry",
                filter_terms := ["bebop", "mambo"], root_dir := "/data" },
    entries := [{ file_path := "/data/a.wav", drone_type := "membo",
                  file_size := 2048, modified_time := 100, snr_db := 20 }] }

/-- The registry docMembo loads to under fsAll. -/
def rMembo : CleanWavRegistry :=
  { header := { created_by := "scan_wav_files.py",
                created_at := "2025-01-01T00:00:00",
                description := "Clean WAV file registry",
                filter_terms := ["bebop", "mambo"], root_dir := "/data" },
    entries := [entry1] }

/-- The correction diagnostic emitted while loading docMembo. -/
def wMembo : CorrectionWarning := { original := "membo", corrected := "mambo" }

/-- Invariant I2 for a registry state: every path held anywhere in the
model — the header's root_dir and every entry's file_path — is absolute
and canonical (a fixed point of resolution). -/
def PathsCanonical (fs : FS) (r : CleanWavRegistry) : Prop :=
  (fs.isAbsolute r.header.root_dir = true ∧
    fs.resolve r.header.root_dir = r.header.root_dir) ∧
  (∀ e ∈ r.entries,
    fs.isAbsolute e.file_path = true ∧ fs.resolve e.file_path = e.file_path)

/-- Closed form of a lookup in the legacy mapping. -/
lemma lookup_LEGACY (s : String) :
    LEGACY_DRONE_NAME_MAPPING.lookup s =
      (if s = "membo" then some DroneType.mambo
       else if s = "mambo" then some DroneType.mambo
       else if s = "bebop" then some DroneType.bebop
       else none) := by
  simp only [LEGACY_DRONE_NAME_MAPPING, List.lookup]
  by_cases h1 : s = "membo"
  · subst h1; rfl
  by_cases h2 : s = "mambo"
  · subst h2; rfl
  by_cases h3 : s = "bebop"
  · subst h3; rfl
  rw [show (s == "membo") = false from beq_eq_false_iff_ne.mpr h1,
      show (s == "mambo") = false from beq_eq_false_iff_ne.mpr h2,
      show (s == "bebop") = false from beq_eq_false_iff_ne.mpr h3]
  simp [h1, h2, h3]

/-- Closed form of normalize_drone_type on a raw string input. -/
lemma normalize_drone_type_inl (value : String) :
    normalize_drone_type (.inl value) =
      (if pyStrip (pyLower value) = "membo" then
        (.ok .mambo, [{ original := value, corrected := "mambo" }])
      else if pyStrip (pyLower value) = "mambo" then (.ok .mambo, [])
      else if pyStrip (pyLower value) = "bebop" then (.ok .bebop, [])
      else (.error { value := value, supported := ["membo", "mambo", "bebop"] }, [])) := by
  simp only [normalize_drone_type, lookup_LEGACY]
  by_cases h1 : pyStrip (pyLower value) = "membo"
  · simp [h1, DroneType.value]
  by_cases h2 : pyStrip (pyLower value) = "mambo"
  · simp [h1, h2, DroneType.value]
  by_cases h3 : pyStrip (pyLower value) = "bebop"
  · simp [h1, h2, h3, DroneType.value]
  simp [h1, h2, h3, DroneType.ofValue, LEGACY_DRONE_NAME_MAPPING]

/-- Normalizing the string value of a canonical DroneType returns that
DroneType with no diagnostic. -/
lemma normalize_drone_type_value (d : DroneType) :
    normalize_drone_type (.inl d.value) = (.ok d, []) := by
  cases d <;> decide

/-- Normalizing an input that is already a DroneType member returns it
unchanged with no diagnostic. -/
lemma normalize_drone_type_inr (d : DroneType) :
    normalize_drone_type (.inr d) = (.ok d, []) := rfl

/-- Entry construction from an already-normalized DroneType cannot fail and
emits no diagnostic. -/
lemma mk_validated_inr (fs : FS) (p : String) (d : DroneType) (sz : Int)
    (mt sn : Rat) :
    CleanWavEntry.mk_validated fs p (.inr d) sz mt sn =
      .ok ({ file_path := fs.resolve p, drone_type := d, file_size := sz,
             modified_time := mt, snr_db := sn }, []) := rfl

/-- C3: normalize maps, case-insensitively after trimming, "membo" to
Mambo with a correction diagnostic present, "mambo" (including "MAMBO") to
Mambo with no diagnostic, and "bebop" to Bebop with no diagnostic; a
correction diagnostic is produced exactly when the trimmed, lower-cased
input is the legacy misspelling "membo", and the diagnostic states the
original value and the corrected value. -/
theorem normalize_membo_mapping_spec :
    (normalize_drone_type (.inl "membo") =
      (.ok .mambo, [{ original := "membo", corrected := "mambo" }])) ∧
    (normalize_drone_type (.inl "mambo") = (.ok .mambo, [])) ∧
    (normalize_drone_type (.inl "MAMBO") = (.ok .mambo, [])) ∧
    (normalize_drone_type (.inl "bebop") = (.ok .bebop, [])) ∧
    (∀ s : String, pyStrip (pyLower s) = "membo" →
      normalize_drone_type (.inl s) =
        (.ok .mambo, [{ original := s, corrected := "mambo" }])) ∧
    (∀ s : String,
      (normalize_drone_type (.inl s)).2 ≠ [] ↔ pyStrip (pyLower s) = "membo") ∧
    (∀ s : String, ∀ w ∈ (normalize_drone_type (.inl s)).2,
      w.original = s ∧ w.corrected = DroneType.mambo.value) := by
  refine ⟨by decide, by decide, by decide, by decide, ?_, ?_, ?_⟩
  · intro s hs
    rw [normalize_drone_type_inl, if_pos hs]
  · intro s
    rw [normalize_drone_type_inl]
    split_ifs with h1 h2 h3 <;> simp [h1]
  · intro s w hw
    rw [normalize_drone_type_inl] at hw
    split_ifs at hw with h1 h2 h3 <;> simp_all [DroneType.value]

/-- Witness for C3: a white-space-padded, mixed-case legacy spelling is
corrected to Mambo with the diagnostic naming the original input. -/
theorem normalize_membo_mapping_spec_witness :
    normalize_drone_type (.inl " MeMbo ") =
      (.ok .mambo, [{ original := " MeMbo ", corrected := "mambo" }]) :=
  normalize_membo_mapping_spec.2.2.2.2.1 " MeMbo " (by decide)

/-- C6: for every string input whose trimmed, lower-cased form matches
neither a legacy alias nor a canonical DeviceType spelling, normalize fails
with UnknownDeviceType, the error carrying the original input value and the
list of all recognized aliases; normalize succeeds for all other inputs. -/
theorem normalize_unknown_device_type (s : String) :
    (∀ e, (normalize_drone_type (.inl s)).1 = .error e →
      e.value = s ∧ e.supported = LEGACY_DRONE_NAME_MAPPING.map Prod.fst) ∧
    ((∃ e, (normalize_drone_type (.inl s)).1 = .error e) ↔
      (pyStrip (pyLower s) ∉ LEGACY_DRONE_NAME_MAPPING.map Prod.fst ∧
       ∀ d : DroneType, pyStrip (pyLower s) ≠ d.value)) := by
  constructor
  · intro e he
    rw [normalize_drone_type_inl] at he
    split_ifs at he with h1 h2 h3 <;> simp at he <;> subst he <;>
      exact ⟨rfl, rfl⟩
  · rw [normalize_drone_type_inl]
    split_ifs with h1 h2 h3 <;>
      simp_all [LEGACY_DRONE_NAME_MAPPING, DroneType.value] <;>
      intro d <;> cases d <;> simp_all [DroneType.value]

/-- Witness for C6: normalizing "quadcopter-x" yields the UnknownDeviceType
error naming the input and all recognized aliases. -/
theorem normalize_unknown_device_type_witness :
    ({ value := "quadcopter-x", supported := ["membo", "mambo", "bebop"] } :
        UnknownDroneTypeError).value = "quadcopter-x" ∧
    ({ value := "quadcopter-x", supported := ["membo", "mambo", "bebop"] } :
        UnknownDroneTypeError).supported = LEGACY_DRONE_NAME_MAPPING.map Prod.fst :=
  (normalize_unknown_device_type "quadcopter-x").1
    { value := "quadcopter-x", supported := ["membo", "mambo", "bebop"] } (by decide)

/-- C9: normalize is idempotent: whenever normalize succeeds with result d,
normalizing that result again succeeds with the same value (and no new
diagnostic); an input that is already a canonical DeviceType is returned
unchanged. -/
theorem normalize_idempotent :
    (∀ (x : DroneInput) (d : DroneType) (ws : List CorrectionWarning),
      normalize_drone_type x = (.ok d, ws) →
      normalize_drone_type (.inr d) = (.ok d, []) ∧
      (normalize_drone_type (.inr d)).1 = (normalize_drone_type x).1) ∧
    (∀ d : DroneType, normalize_drone_type (.inr d) = (.ok d, [])) := by
  refine ⟨?_, fun d => rfl⟩
  intro x d ws h
  exact ⟨rfl, by rw [h]; rfl⟩

/-- Witness for C9: re-normalizing the result of normalizing "membo" is a
fixed point. -/
theorem normalize_idempotent_witness :
    normalize_drone_type (.inr DroneType.mambo) = (.ok DroneType.mambo, []) ∧
    (normalize_drone_type (.inr DroneType.mambo)).1 =
      (normalize_drone_type (.inl "membo")).1 :=
  normalize_idempotent.1 (.inl "membo") .mambo
    [{ original := "membo", corrected := "mambo" }] (by decide)

/-- C8 counterexample: on input "membo" the correction diagnostic is pushed
onto the process-wide warnings stream (warnings.warn) — the global state
changes — while the value returned to the caller is only the DroneType, so
the diagnostic is not returned to the caller as data. -/
theorem normalize_warns_globally_cex :
    (normalize_drone_type_withWarnings { emitted := [] } (.inl "membo")).1 ≠
      ({ emitted := [] } : PyWarningsState) ∧
    (normalize_drone_type_withWarnings { emitted := [] } (.inl "membo")).1.emitted =
      [{ original := "membo", corrected := "mambo" }] ∧
    (normalize_drone_type_withWarnings { emitted := [] } (.inl "membo")).2 =
      .ok DroneType.mambo := by
  decide

/-- C8 amended: the returned value of normalize depends only on the input,
and the only shared-state effect is appending the correction diagnostic to
the process-wide warnings stream, which happens exactly when a string input
trims and lower-cases to the legacy misspelling "membo" (never for an input
that is already a DroneType). -/
theorem normalize_global_warning_behavior :
    (∀ (g : PyWarningsState) (v : DroneInput),
      (normalize_drone_type_withWarnings g v).2 = (normalize_drone_type v).1 ∧
      (normalize_drone_type_withWarnings g v).1.emitted =
        g.emitted ++ (normalize_drone_type v).2) ∧
    (∀ (g : PyWarningsState) (s : String),
      (normalize_drone_type_withWarnings g (.inl s)).1 ≠ g ↔
        pyStrip (pyLower s) = "membo") ∧
    (∀ (g : PyWarningsState) (d : DroneType),
      (normalize_drone_type_withWarnings g (.inr d)).1 = g) := by
  refine ⟨?_, ?_, ?_⟩
  · intro g v
    rcases h : normalize_drone_type v with ⟨res, ws⟩
    simp [normalize_drone_type_withWarnings, h]
  · intro g s
    simp only [normalize_drone_type_withWarnings]
    rw [normalize_drone_type_inl]
    rcases g with ⟨l⟩
    split_ifs with h1 h2 h3 <;> simp [h1, PyWarningsState.mk.injEq]
  · intro g d
    rcases g with ⟨l⟩
    simp [normalize_drone_type_withWarnings, normalize_drone_type]

/-- Incrementing a drone-type count raises the sum of the dict values by
one. -/
lemma dictIncr_sum (m : List (DroneType × Nat)) (k : DroneType) :
    ((dictIncr m k).map Prod.snd).sum = (m.map Prod.snd).sum + 1 := by
  induction m with
  | nil => rfl
  | cons p rest ih =>
    rcases p with ⟨k1, v⟩
    by_cases h : k1 = k <;> simp [dictIncr, h, ih] <;> omega

/-- Membership in the keys of the dict after an increment. -/
lemma dictIncr_keys (m : List (DroneType × Nat)) (k a : DroneType) :
    a ∈ (dictIncr m k).map Prod.fst ↔ a = k ∨ a ∈ m.map Prod.fst := by
  induction m with
  | nil => simp [dictIncr, eq_comm]
  | cons p rest ih =>
    rcases p with ⟨k1, v⟩
    by_cases h : k1 = k <;> simp [dictIncr, h, ih] <;> tauto

/-- Sum of the counts accumulated by the count_by_drone_type fold. -/
lemma count_fold_sum (l : List CleanWavEntry) (m : List (DroneType × Nat)) :
    (((l.foldl (fun m e => dictIncr m e.drone_type) m).map Prod.snd).sum) =
      (m.map Prod.snd).sum + l.length := by
  induction l generalizing m with
  | nil => simp
  | cons e rest ih => simp [ih, dictIncr_sum]; omega

/-- Keys accumulated by the count_by_drone_type fold. -/
lemma count_fold_keys (l : List CleanWavEntry) (m : List (DroneType × Nat))
    (a : DroneType) :
    a ∈ (l.foldl (fun m e => dictIncr m e.drone_type) m).map Prod.fst ↔
      a ∈ m.map Prod.fst ∨ ∃ e ∈ l, e.drone_type = a := by
  induction l generalizing m with
  | nil => simp
  | cons e rest ih =>
    rw [List.foldl_cons, ih, dictIncr_keys]
    simp only [List.mem_cons]
    constructor
    · rintro ((h | h) | ⟨e1, he1, hdt⟩)
      · exact Or.inr ⟨e, Or.inl rfl, h.symm⟩
      · exact Or.inl h
      · exact Or.inr ⟨e1, Or.inr he1, hdt⟩
    · rintro (h | ⟨e1, he1 | he1, hdt⟩)
      · exact Or.inl (Or.inr h)
      · subst he1; exact Or.inl (Or.inl hdt.symm)
      · exact Or.inr ⟨e1, he1, hdt⟩

/-- C7: for every Registry state, the values of count_by_drone_type sum to
the number of entries, a device type appears among its keys exactly when
some entry has that type (so types with zero entries are absent), and a
Registry with no entries yields the empty mapping. -/
theorem count_by_drone_type_spec :
    ∀ (r : CleanWavRegistry) (hd : RegistryHeader),
      ((r.count_by_drone_type.map Prod.snd).sum = r.entries.length) ∧
      (∀ dt : DroneType,
        dt ∈ r.count_by_drone_type.map Prod.fst ↔
          ∃ e ∈ r.entries, e.drone_type = dt) ∧
      (CleanWavRegistry.count_by_drone_type { header := hd, entries := [] } = []) := by
  intro r hd
  refine ⟨?_, ?_, rfl⟩
  · simpa using count_fold_sum r.entries []
  · intro dt
    simpa using count_fold_keys r.entries [] dt

/-- C5: add_entry on a path that does not exist fails with FileNotFound
and leaves the Registry unchanged; more generally add_entry is
all-or-nothing per call — on any failure no Entry is appended and the
Registry state is unchanged, and on success exactly one Entry is appended
and the Header is untouched. -/
theorem add_entry_all_or_nothing (fs : FS) (r : CleanWavRegistry) (p : String)
    (v : DroneInput) :
    (fs.pathExists p = false →
      r.add_entry fs p v = (r, .error (.fileNotFound p))) ∧
    (∀ err, (r.add_entry fs p v).2 = .error err → (r.add_entry fs p v).1 = r) ∧
    (∀ ws, (r.add_entry fs p v).2 = .ok ws →
      (r.add_entry fs p v).1.header = r.header ∧
      ∃ e, (r.add_entry fs p v).1.entries = r.entries ++ [e]) := by
  by_cases hex : fs.pathExists p
  · rcases hn : normalize_drone_type v with ⟨res, ws0⟩
    rcases res with e0 | d0
    · refine ⟨fun hf => absurd hex (by simp [hf]), ?_, ?_⟩
      · intro err h
        simp [CleanWavRegistry.add_entry, hex, hn]
      · intro ws h
        simp [CleanWavRegistry.add_entry, hex, hn] at h
    · refine ⟨fun hf => absurd hex (by simp [hf]), ?_, ?_⟩
      · intro err h
        simp [CleanWavRegistry.add_entry, hex, hn, mk_validated_inr] at h
      · intro ws h
        refine ⟨by simp [CleanWavRegistry.add_entry, hex, hn, mk_validated_inr], ?_⟩
        refine ⟨{ file_path := fs.resolve p, drone_type := d0,
                  file_size := fs.st_size p, modified_time := fs.st_mtime p,
                  snr_db := 20 }, ?_⟩
        simp [CleanWavRegistry.add_entry, hex, hn, mk_validated_inr]
  · have hx : fs.pathExists p = false := by simpa using hex
    refine ⟨fun _ => by simp [CleanWavRegistry.add_entry, hx], ?_, ?_⟩
    · intro err h
      simp [CleanWavRegistry.add_entry, hx]
    · intro ws h
      simp [CleanWavRegistry.add_entry, hx] at h

/-- Witness for C5: adding a missing path fails with FileNotFound and
returns the registry unchanged. -/
theorem add_entry_all_or_nothing_witness :
    CleanWavRegistry.add_entry fsNone r0 "/data/missing.wav" (.inl "bebop") =
      (r0, .error (.fileNotFound "/data/missing.wav")) :=
  (add_entry_all_or_nothing fsNone r0 "/data/missing.wav" (.inl "bebop")).1 rfl

/-- C10: add_entry offers no way to supply a signal-quality value, so for
every Registry whose entries were produced only via create and add_entry,
every entry's snr_db is the default 20.0. -/
theorem add_entry_snr_default (fs : FS) (r : CleanWavRegistry)
    (h : ReachableByAddEntry fs r) : ∀ e ∈ r.entries, e.snr_db = 20 := by
  induction h with
  | created cb ft rd d now =>
    intro e he
    simp [CleanWavRegistry.create] at he
  | step r p v hr ih =>
    intro e he
    by_cases hex : fs.pathExists p
    · rcases hn : normalize_drone_type v with ⟨res, ws0⟩
      rcases res with e0 | d0
      · simp [CleanWavRegistry.add_entry, hex, hn] at he
        exact ih e he
      · simp [CleanWavRegistry.add_entry, hex, hn, mk_validated_inr] at he
        rcases he with he | he
        · exact ih e he
        · subst he; rfl
    · have hx : fs.pathExists p = false := by simpa using hex
      simp [CleanWavRegistry.add_entry, hx] at he
      exact ih e he

/-- Witness for C10: the one entry added to r1 carries the default
snr_db of 20.0. -/
theorem add_entry_snr_default_witness :
    r1.entries = [entry1] ∧ entry1.snr_db = 20 :=
  ⟨by decide, add_entry_snr_default fsAll r1
    (ReachableByAddEntry.step r0 "/data/a.wav" (.inl "membo")
      (ReachableByAddEntry.created "scan_wav_files.py" ["bebop", "mambo"] "/data"
        "Clean WAV file registry" "2025-01-01T00:00:00")) entry1 (by decide)⟩

/-- A successfully constructed entry's stored path is the canonicalization
of the raw input path. -/
lemma mk_validated_ok_path (fs : FS) (p : String) (v : DroneInput) (sz : Int)
    (mt sn : Rat) (e : CleanWavEntry) (ws : List CorrectionWarning)
    (h : CleanWavEntry.mk_validated fs p v sz mt sn = .ok (e, ws)) :
    e.file_path = fs.resolve p := by
  unfold CleanWavEntry.mk_validated at h
  rcases hv : validate_drone_type v with ⟨res, ws0⟩
  rw [hv] at h
  rcases res with e0 | d0
  · exact absurd h (by simp)
  · simp only [Except.ok.injEq, Prod.mk.injEq] at h
    rw [← h.1]
    rfl

/-- Reloading the serialized form of already-canonical entries restores
them exactly, with no correction diagnostics. -/
lemma loadEntries_to_docs (fs : FS) (l : List CleanWavEntry)
    (h : ∀ e ∈ l, fs.resolve e.file_path = e.file_path) :
    loadEntriesFromDocs fs (l.map CleanWavEntry.to_doc) = .ok (l, []) := by
  induction l with
  | nil => rfl
  | cons e rest ih =>
    have he : fs.resolve e.file_path = e.file_path := h e (List.mem_cons_self e rest)
    have hrest := ih (fun x hx => h x (List.mem_cons_of_mem e hx))
    have hmk : CleanWavEntry.mk_validated fs e.file_path (.inl e.drone_type.value)
        e.file_size e.modified_time e.snr_db = .ok (e, []) := by
      unfold CleanWavEntry.mk_validated
      rw [show validate_drone_type (.inl e.drone_type.value) = (.ok e.drone_type, [])
        from normalize_drone_type_value e.drone_type]
      simp [validate_file_path, he]
    simp only [List.map_cons, loadEntriesFromDocs, CleanWavEntry.to_doc]
    rw [hmk, hrest]
    rfl

/-- C1: for every Registry whose stored paths are canonical (as every
observable Registry's are, by invariant I2), saving and then loading the
saved document yields a Registry whose Header and sequence of Entries are
field-wise equal to the original's, in the same order, with no correction
diagnostics. -/
theorem save_load_round_trip (fs : FS) (r : CleanWavRegistry)
    (hroot : fs.resolve r.header.root_dir = r.header.root_dir)
    (hpaths : ∀ e ∈ r.entries, fs.resolve e.file_path = e.file_path) :
    CleanWavRegistry.load_from_file fs r.save_to_file = .ok (r, []) := by
  unfold CleanWavRegistry.save_to_file CleanWavRegistry.load_from_file
  simp only []
  rw [loadEntries_to_docs fs r.entries hpaths]
  have hh : RegistryHeader.mk_validated fs r.header.created_by r.header.created_at
      r.header.description r.header.filter_terms r.header.root_dir = r.header := by
    unfold RegistryHeader.mk_validated validate_root_dir
    rw [hroot]
  rw [hh]

/-- Witness for C1: the registry r1 (one entry, canonical paths) survives
a save/load round trip unchanged. -/
theorem save_load_round_trip_witness :
    CleanWavRegistry.load_from_file fsAll r1.save_to_file = .ok (r1, []) :=
  save_load_round_trip fsAll r1 rfl (fun e _ => rfl)

/-- Loading a list of entry documents whose drone_type tokens are all
recognized succeeds, and every legacy "membo" entry is upgraded to Mambo
with its diagnostic among the emitted warnings. -/
lemma loadEntries_recognized (fs : FS) (ds : List CleanWavEntryDoc)
    (h : ∀ d ∈ ds,
      pyStrip (pyLower d.drone_type) ∈ (["membo", "mambo", "bebop"] : List String)) :
    ∃ es ws, loadEntriesFromDocs fs ds = .ok (es, ws) ∧
      List.Forall₂ (MemboUpgraded ws) ds es := by
  induction ds with
  | nil => exact ⟨[], [], rfl, List.Forall₂.nil⟩
  | cons d rest ih =>
    obtain ⟨es, ws, hl, hfa⟩ := ih (fun x hx => h x (List.mem_cons_of_mem d hx))
    have hd := h d (List.mem_cons_self d rest)
    simp only [List.mem_cons, List.mem_singleton, List.not_mem_nil, or_false] at hd
    have hnorm := normalize_drone_type_inl d.drone_type
    rcases hd with hd | hd | hd
    · rw [if_pos hd] at hnorm
      have hmk : CleanWavEntry.mk_validated fs d.file_path (.inl d.drone_type)
          d.file_size d.modified_time d.snr_db =
          .ok ({ file_path := fs.resolve d.file_path, drone_type := .mambo,
                 file_size := d.file_size, modified_time := d.modified_time,
                 snr_db := d.snr_db },
               [{ original := d.drone_type, corrected := "mambo" }]) := by
        unfold CleanWavEntry.mk_validated validate_drone_type
        rw [hnorm]
        rfl
      refine ⟨_, _, by simp only [loadEntriesFromDocs]; rw [hmk, hl], ?_⟩
      refine List.Forall₂.cons (fun _ => ⟨rfl, List.mem_cons_self _ _⟩) ?_
      exact hfa.imp (fun a b hme hm => ⟨(hme hm).1, List.mem_cons_of_mem _ (hme hm).2⟩)
    · rw [if_neg (by rw [hd]; decide), if_pos hd] at hnorm
      have hmk : CleanWavEntry.mk_validated fs d.file_path (.inl d.drone_type)
          d.file_size d.modified_time d.snr_db =
          .ok ({ file_path := fs.resolve d.file_path, drone_type := .mambo,
                 file_size := d.file_size, modified_time := d.modified_time,
                 snr_db := d.snr_db }, []) := by
        unfold CleanWavEntry.mk_validated validate_drone_type
        rw [hnorm]
        rfl
      refine ⟨_, _, by simp only [loadEntriesFromDocs]; rw [hmk, hl], ?_⟩
      exact List.Forall₂.cons (fun hm => absurd (hd ▸ hm) (by decide)) (by simpa using hfa)
    · rw [if_neg (by rw [hd]; decide), if_neg (by rw [hd]; decide), if_pos hd] at hnorm
      have hmk : CleanWavEntry.mk_validated fs d.file_path (.inl d.drone_type)
          d.file_size d.modified_time d.snr_db =
          .ok ({ file_path := fs.resolve d.file_path, drone_type := .bebop,
                 file_size := d.file_size, modified_time := d.modified_time,
                 snr_db := d.snr_db }, []) := by
        unfold CleanWavEntry.mk_validated validate_drone_type
        rw [hnorm]
        rfl
      refine ⟨_, _, by simp only [loadEntriesFromDocs]; rw [hmk, hl], ?_⟩
      exact List.Forall₂.cons (fun hm => absurd (hd ▸ hm) (by decide)) (by simpa using hfa)

/-- C2: loading a persisted document whose entries all carry recognized
drone_type tokens succeeds even when some carry the legacy value "membo",
and every such loaded Entry's device_type equals Mambo, with a correction
diagnostic (naming the original token and "mambo") among the emitted
warnings — the legacy token is upgraded through the normal normalization
path, so invariant I1 holds even for hand-edited documents. -/
theorem load_membo_upgraded (fs : FS) (doc : CleanWavRegistryDoc)
    (h : ∀ d ∈ doc.entries,
      pyStrip (pyLower d.drone_type) ∈ (["membo", "mambo", "bebop"] : List String)) :
    (∃ res, CleanWavRegistry.load_from_file fs doc = .ok res) ∧
    (∀ r ws, CleanWavRegistry.load_from_file fs doc = .ok (r, ws) →
      List.Forall₂ (MemboUpgraded ws) doc.entries r.entries) := by
  obtain ⟨es, ws, hl, hfa⟩ := loadEntries_recognized fs doc.entries h
  constructor
  · exact ⟨_, by unfold CleanWavRegistry.load_from_file; rw [hl]⟩
  · intro r ws' hr
    unfold CleanWavRegistry.load_from_file at hr
    rw [hl] at hr
    simp only [Except.ok.injEq, Prod.mk.injEq] at hr
    obtain ⟨hr1, hr2⟩ := hr
    subst hr2
    rw [← hr1]
    exact hfa

/-- Witness for C2: loading the hand-written "membo" document succeeds and
upgrades the entry to Mambo with the correction diagnostic emitted. -/
theorem load_membo_upgraded_witness :
    List.Forall₂ (MemboUpgraded [wMembo]) docMembo.entries rMembo.entries :=
  (load_membo_upgraded fsAll docMembo (by decide)).2 rMembo [wMembo] (by decide)

/-- Every entry produced by loading a document has a path that is the
canonicalization of some raw input string. -/
lemma loadEntries_ok_paths (fs : FS) (ds : List CleanWavEntryDoc)
    (es : List CleanWavEntry) (ws : List CorrectionWarning)
    (h : loadEntriesFromDocs fs ds = .ok (es, ws)) :
    ∀ e ∈ es, ∃ s, e.file_path = fs.resolve s := by
  induction ds generalizing es ws with
  | nil =>
    simp only [loadEntriesFromDocs, Except.ok.injEq, Prod.mk.injEq] at h
    rw [← h.1]
    simp
  | cons d rest ih =>
    simp only [loadEntriesFromDocs] at h
    rcases hm : CleanWavEntry.mk_validated fs d.file_path (.inl d.drone_type)
        d.file_size d.modified_time d.snr_db with e0 | p1
    · rw [hm] at h
      exact absurd h (by simp)
    · rcases p1 with ⟨e1, ws1⟩
      rw [hm] at h
      rcases hl : loadEntriesFromDocs fs rest with err | p2
      · rw [hl] at h
        exact absurd h (by simp)
      · rcases p2 with ⟨es2, ws2⟩
        rw [hl] at h
        simp only [Except.ok.injEq, Prod.mk.injEq] at h
        rw [← h.1]
        intro e he
        rcases List.mem_cons.mp he with he | he
        · subst he
          exact ⟨d.file_path, mk_validated_ok_path fs d.file_path _ _ _ _ _ _ hm⟩
        · exact ih es2 ws2 hl e he

/-- C4: on a filesystem whose canonicalization is idempotent and always
produces absolute paths (the behaviour of expanduser().resolve() on a
static filesystem), every path held in the model is absolute and canonical:
the invariant is established by Entry and Header construction from any
string input, holds for create, is preserved by add_entry, and holds for
every registry produced by load. -/
theorem paths_absolute_canonical (fs : FS)
    (hIdem : ∀ p, fs.resolve (fs.resolve p) = fs.resolve p)
    (hAbs : ∀ p, fs.isAbsolute (fs.resolve p) = true) :
    (∀ (p : String) (v : DroneInput) (sz : Int) (mt sn : Rat)
        (e : CleanWavEntry) (ws : List CorrectionWarning),
      CleanWavEntry.mk_validated fs p v sz mt sn = .ok (e, ws) →
      fs.isAbsolute e.file_path = true ∧ fs.resolve e.file_path = e.file_path) ∧
    (∀ cb ca d ft rd,
      fs.isAbsolute (RegistryHeader.mk_validated fs cb ca d ft rd).root_dir = true ∧
      fs.resolve (RegistryHeader.mk_validated fs cb ca d ft rd).root_dir =
        (RegistryHeader.mk_validated fs cb ca d ft rd).root_dir) ∧
    (∀ cb ft rd d now,
      PathsCanonical fs (CleanWavRegistry.create fs cb ft rd d now)) ∧
    (∀ r p v, PathsCanonical fs r → PathsCanonical fs (r.add_entry fs p v).1) ∧
    (∀ doc r ws, CleanWavRegistry.load_from_file fs doc = .ok (r, ws) →
      PathsCanonical fs r) := by
  refine ⟨?_, ?_, ?_, ?_, ?_⟩
  · intro p v sz mt sn e ws h
    have hp := mk_validated_ok_path fs p v sz mt sn e ws h
    rw [hp]
    exact ⟨hAbs p, hIdem p⟩
  · intro cb ca d ft rd
    exact ⟨hAbs rd, hIdem rd⟩
  · intro cb ft rd d now
    refine ⟨⟨hAbs rd, hIdem rd⟩, ?_⟩
    intro e he
    simp [CleanWavRegistry.create] at he
  · intro r p v hr
    by_cases hex : fs.pathExists p
    · rcases hn : normalize_drone_type v with ⟨res, ws0⟩
      rcases res with e0 | d0
      · simpa [CleanWavRegistry.add_entry, hex, hn] using hr
      · refine ⟨?_, ?_⟩
        · simpa [CleanWavRegistry.add_entry, hex, hn, mk_validated_inr] using hr.1
        · intro e he
          simp only [CleanWavRegistry.add_entry, hex, hn, mk_validated_inr,
            if_true] at he
          simp only [List.mem_append, List.mem_singleton] at he
          rcases he with he | he
          · exact hr.2 e he
          · subst he
            exact ⟨hAbs p, hIdem p⟩
    · have hx : fs.pathExists p = false := by simpa using hex
      simpa [CleanWavRegistry.add_entry, hx] using hr
  · intro doc r ws h
    unfold CleanWavRegistry.load_from_file at h
    rcases hl : loadEntriesFromDocs fs doc.entries with err | p2
    · rw [hl] at h
      exact absurd h (by simp)
    · rcases p2 with ⟨es, ws2⟩
      rw [hl] at h
      simp only [Except.ok.injEq, Prod.mk.injEq] at h
      rw [← h.1]
      refine ⟨⟨hAbs doc.header.root_dir, hIdem doc.header.root_dir⟩, ?_⟩
      intro e he
      obtain ⟨s, hs⟩ := loadEntries_ok_paths fs doc.entries es ws2 hl e he
      rw [hs]
      exact ⟨hAbs s, hIdem s⟩

/-- Witness for C4: the concrete identity-resolving filesystem fsAll is
idempotent and absolute-producing, and the created registry r0 satisfies
the invariant. -/
theorem paths_absolute_canonical_witness : PathsCanonical fsAll r0 :=
  (paths_absolute_canonical fsAll (fun p => rfl) (fun p => rfl)).2.2.1
    "scan_wav_files.py" ["bebop", "mambo"] "/data" "Clean WAV file registry"
    "2025-01-01T00:00:00"

/-- Witness for the amended C8: normalizing an already-canonical DroneType
input leaves the global warnings state untouched. -/
theorem normalize_global_warning_behavior_witness :
    (normalize_drone_type_withWarnings { emitted := [] } (.inr DroneType.bebop)).1 =
      ({ emitted := [] } : PyWarningsState) :=
  normalize_global_warning_behavior.2.2 { emitted := [] } DroneType.bebop
